import Mathlib

/-!
Shallow embedding of the iep-harmony-backend file-processing server
(the enhanced Express variant: routes GET /, GET /health, POST /upload,
POST /analyze, a 10 MiB multer limit, an error middleware and a 404
handler).  Strings are modelled through their character lists; the JS
string operations the server uses (endsWith, toLowerCase, trim, length)
are embedded below.  The two external extraction libraries (mammoth and
pdf-parse) are parameters of the handler, so that claims about when they
are or are not consulted become independence statements.
-/

/-- JSON values, as produced by the server's res.json calls. -/
inductive Json where
  | str (s : String)
  | num (n : Nat)
  | arr (elems : List Json)
  | obj (fields : List (String × Json))

/-- JS String.prototype.endsWith: the argument is a suffix of the string. -/
def jsEndsWith (s t : String) : Bool := decide (t.data <:+ s.data)

/-- JS String.prototype.toLowerCase, on the ASCII range the server compares. -/
def jsToLowerCase (s : String) : String := ⟨s.data.map Char.toLower⟩

/-- JS String.prototype.trim: strip leading and trailing whitespace. -/
def jsTrim (s : String) : String :=
  ⟨((s.data.dropWhile Char.isWhitespace).reverse.dropWhile Char.isWhitespace).reverse⟩

/-- JS String.prototype.length. -/
def jsLength (s : String) : Nat := s.data.length

/-- The uploaded file as multer hands it to the handler:
req.file.buffer and req.file.originalname. -/
structure UploadFile where
  buffer : List Nat
  originalname : String

/-- The two external extraction capabilities the handler awaits:
mammoth.extractRawText giving result.value, and pdf-parse giving data.text.
A thrown library error is the Except.error case, carrying its message. -/
structure ExtractLibs where
  mammothExtractRawText : List Nat → Except String String
  pdfParse : List Nat → Except String String

/-- An error object reaching the Express error middleware: whether it is a
multer.MulterError, and its code. -/
structure ServerError where
  isMulterError : Bool
  code : String

/-- The 400 body of the unsupported-extension branch. -/
def unsupportedResponse : Nat × Json :=
  (400, Json.obj [("error", Json.str "Unsupported file type."),
                  ("supportedTypes", Json.arr [Json.str ".docx", Json.str ".pdf"])])

/-- The 200 body: { text, metadata: { originalName, fileSize,
extractedLength, processingTime, timestamp } }. -/
def successBody (extractedText originalName : String)
    (fileSize processingTime : Nat) (timestamp : String) : Json :=
  Json.obj [("text", Json.str extractedText),
            ("metadata", Json.obj
              [("originalName", Json.str originalName),
               ("fileSize", Json.num fileSize),
               ("extractedLength", Json.num (jsLength extractedText)),
               ("processingTime", Json.num processingTime),
               ("timestamp", Json.str timestamp)])]

/-- The tail of the upload handler after extraction: the
`if (!extractedText?.trim())` 422 check, then the 200 response. -/
def finishUpload (extractedText originalname : String)
    (fileSize processingTime : Nat) (timestamp : String) : Nat × Json :=
  if jsTrim extractedText = "" then
    (422, Json.obj [("error", Json.str "No text extracted."),
                    ("extractedLength", Json.num (jsLength extractedText))])
  else
    (200, successBody extractedText originalname fileSize processingTime timestamp)

/-- The .docx branch: await mammoth.extractRawText, 500 on a thrown error. -/
def docxPath (libs : ExtractLibs) (file : UploadFile)
    (timestamp : String) (processingTime : Nat) : Nat × Json :=
  match libs.mammothExtractRawText file.buffer with
  | Except.error msg =>
      (500, Json.obj [("error", Json.str "Failed to process DOCX file."),
                      ("details", Json.str msg)])
  | Except.ok t =>
      finishUpload t file.originalname file.buffer.length processingTime timestamp

/-- The .pdf branch: await pdf(buffer), 500 on a thrown error. -/
def pdfPath (libs : ExtractLibs) (file : UploadFile)
    (timestamp : String) (processingTime : Nat) : Nat × Json :=
  match libs.pdfParse file.buffer with
  | Except.error msg =>
      (500, Json.obj [("error", Json.str "Failed to process PDF file."),
                      ("details", Json.str msg)])
  | Except.ok t =>
      finishUpload t file.originalname file.buffer.length processingTime timestamp

/-- The body of app.post('/upload'): missing-file check, then dispatch on
originalname.toLowerCase().endsWith('.docx') / '.pdf', else the 400
unsupported-type response. -/
def uploadHandler (libs : ExtractLibs) (reqFile : Option UploadFile)
    (timestamp : String) (processingTime : Nat) : Nat × Json :=
  match reqFile with
  | none =>
      (400, Json.obj [("error", Json.str "No file uploaded."),
                      ("timestamp", Json.str timestamp)])
  | some file =>
      if jsEndsWith (jsToLowerCase file.originalname) ".docx" then
        docxPath libs file timestamp processingTime
      else if jsEndsWith (jsToLowerCase file.originalname) ".pdf" then
        pdfPath libs file timestamp processingTime
      else
        unsupportedResponse

/-- The configured multer ceiling: limits.fileSize = 10 * 1024 * 1024. -/
def fileSizeLimit : Nat := 10 * 1024 * 1024

/-- Modelled from the spec: multer itself is an external library not in the
repository; per the spec, a file whose byte length exceeds the configured
ceiling is rejected during multipart body parsing, before the handler body
runs, by a multer.MulterError with code LIMIT_FILE_SIZE. -/
def multerParse (limit : Nat) (file : Option UploadFile) :
    Except ServerError (Option UploadFile) :=
  match file with
  | none => Except.ok none
  | some f =>
      if f.buffer.length > limit then
        Except.error ⟨true, "LIMIT_FILE_SIZE"⟩
      else
        Except.ok (some f)

/-- The Express error middleware: a MulterError with code LIMIT_FILE_SIZE
becomes 413, anything else 500. -/
def errorMiddleware (e : ServerError) (timestamp : String) : Nat × Json :=
  if e.isMulterError && e.code == "LIMIT_FILE_SIZE" then
    (413, Json.obj [("error", Json.str "File too large. Max size is 10MB.")])
  else
    (500, Json.obj [("error", Json.str "Internal server error"),
                    ("timestamp", Json.str timestamp)])

/-- The /upload route as Express runs it: the multer middleware parses the
multipart body first; an error it throws is routed to the error middleware,
otherwise the handler body runs on the parsed file. -/
def uploadRoute (libs : ExtractLibs) (file : Option UploadFile)
    (timestamp : String) (processingTime : Nat) : Nat × Json :=
  match multerParse fileSizeLimit file with
  | Except.error e => errorMiddleware e timestamp
  | Except.ok reqFile => uploadHandler libs reqFile timestamp processingTime

/-- JS accommodations?.length || 0 on an optional string field. -/
def optLen : Option String → Nat
  | some s => jsLength s
  | none => 0

/-- The template literal of the /analyze summary. -/
def analyzeSummary (aLen lLen : Nat) : String :=
  "Accommodations and lesson plan received (" ++ toString aLen ++ " / " ++
    toString lLen ++ " characters)."

/-- The received object of /analyze: JSON serialization drops a key whose
value is undefined, so an absent field contributes no key. -/
def receivedFields (accommodations lessonPlan : Option String) :
    List (String × Json) :=
  (match accommodations with
   | some s => [("accommodations", Json.str s)]
   | none => []) ++
  (match lessonPlan with
   | some s => [("lessonPlan", Json.str s)]
   | none => [])

/-- The body of app.post('/analyze'). -/
def analyzeHandler (accommodations lessonPlan : Option String) : Nat × Json :=
  (200, Json.obj
    [("message", Json.str "Analysis received."),
     ("summary", Json.str (analyzeSummary (optLen accommodations) (optLen lessonPlan))),
     ("received", Json.obj (receivedFields accommodations lessonPlan))])

/-- HTTP methods the app registers routes for. -/
inductive Method where
  | GET
  | POST
deriving DecidableEq

/-- An incoming request, with the data each handler reads from it. -/
structure Request where
  method : Method
  path : String
  file : Option UploadFile
  accommodations : Option String
  lessonPlan : Option String

/-- The availableEndpoints constant of the 404 handler. -/
def availableEndpoints : List String :=
  ["GET /", "GET /health", "POST /upload", "POST /analyze"]

/-- The 404 handler's response. -/
def notFoundResponse : Nat × Json :=
  (404, Json.obj [("error", Json.str "Endpoint not found"),
                  ("availableEndpoints", Json.arr (availableEndpoints.map Json.str))])

/-- GET /health. -/
def healthResponse (timestamp : String) (uptime : Nat) : Nat × Json :=
  (200, Json.obj [("status", Json.str "healthy"),
                  ("timestamp", Json.str timestamp),
                  ("uptime", Json.num uptime)])

/-- GET /. -/
def rootResponse : Nat × Json :=
  (200, Json.obj [("message", Json.str "IEP Harmony File Processing Server")])

/-- The app's routing, in registration order; a request matching no route
falls through to the 404 handler. -/
def serverRespond (libs : ExtractLibs) (req : Request)
    (timestamp : String) (processingTime uptime : Nat) : Nat × Json :=
  if req.method = Method.GET ∧ req.path = "/health" then
    healthResponse timestamp uptime
  else if req.method = Method.GET ∧ req.path = "/" then
    rootResponse
  else if req.method = Method.POST ∧ req.path = "/upload" then
    uploadRoute libs req.file timestamp processingTime
  else if req.method = Method.POST ∧ req.path = "/analyze" then
    analyzeHandler req.accommodations req.lessonPlan
  else
    notFoundResponse

/-- A method/path pair matching one of the registered routes. -/
def isRegisteredRoute (m : Method) (p : String) : Prop :=
  (m = Method.GET ∧ p = "/health") ∨ (m = Method.GET ∧ p = "/") ∨
  (m = Method.POST ∧ p = "/upload") ∨ (m = Method.POST ∧ p = "/analyze")

instance (m : Method) (p : String) : Decidable (isRegisteredRoute m p) := by
  unfold isRegisteredRoute
  infer_instance

/-- The dynamic value of const port = process.env.PORT || 3001: a string or
a number, depending on the environment. -/
inductive PortValue where
  | str (s : String)
  | num (n : Nat)
deriving DecidableEq

/-- The fallback of the || expression. -/
def defaultPort : Nat := 3001

/-- const port = process.env.PORT || 3001 — JS truthiness: the env string
when it is set and non-empty, else the number 3001. -/
def port (envPORT : Option String) : PortValue :=
  match envPORT with
  | some s => if s = "" then PortValue.num defaultPort else PortValue.str s
  | none => PortValue.num defaultPort

/-- Whether a JSON value is a string. -/
def isStrJson : Json → Bool
  | Json.str _ => true
  | _ => false

/-- First value bound to a key in a JSON object's field list. -/
def lookupField (k : String) : List (String × Json) → Option Json
  | [] => none
  | (k', v) :: rest => if k' = k then some v else lookupField k rest

/-- The body is an object with a string-valued error field. -/
def hasStringErrorField : Json → Bool
  | Json.obj fields =>
      (match lookupField "error" fields with
       | some (Json.str _) => true
       | _ => false)
  | _ => false

-- smoke tests of the embedding on concrete inputs
example : jsEndsWith "report.docx" ".docx" = true := by decide
example : jsEndsWith "report.DOCX" ".docx" = false := by decide
example : jsToLowerCase "A.DOCX" = "a.docx" := by decide
example : jsTrim "  \n " = "" := by decide
example : analyzeSummary 3 0 =
    "Accommodations and lesson plan received (3 / 0 characters)." := by decide

/-- Lowercasing preserves a suffix: endsWith survives toLowerCase on both sides. -/
theorem jsEndsWith_toLower {s t : String} (h : jsEndsWith s t = true) :
    jsEndsWith (jsToLowerCase s) (jsToLowerCase t) = true := by
  simp only [jsEndsWith, decide_eq_true_eq] at h ⊢
  exact h.map Char.toLower

/-- A name ending in ".docx" keeps that suffix after lowercasing. -/
theorem lower_ends_docx {s : String} (h : jsEndsWith s ".docx" = true) :
    jsEndsWith (jsToLowerCase s) ".docx" = true := by
  have hl := jsEndsWith_toLower h
  have he : jsToLowerCase ".docx" = ".docx" := by decide
  rwa [he] at hl

/-- A name ending in ".pdf" keeps that suffix after lowercasing. -/
theorem lower_ends_pdf {s : String} (h : jsEndsWith s ".pdf" = true) :
    jsEndsWith (jsToLowerCase s) ".pdf" = true := by
  have hl := jsEndsWith_toLower h
  have he : jsToLowerCase ".pdf" = ".pdf" := by decide
  rwa [he] at hl

/-- A string ending in ".pdf" does not end in ".docx": the two suffixes are
incompatible. -/
theorem ends_pdf_not_docx {s : String} (h : jsEndsWith s ".pdf" = true) :
    jsEndsWith s ".docx" = false := by
  simp only [jsEndsWith, decide_eq_true_eq] at h
  simp only [jsEndsWith, decide_eq_false_iff_not]
  intro hd
  rcases List.suffix_or_suffix_of_suffix h hd with h1 | h1
  · exact absurd h1 (by decide)
  · exact absurd h1 (by decide)

/-- Within the size ceiling, multer passes the file through to the handler. -/
theorem uploadRoute_small {libs : ExtractLibs} {f : UploadFile}
    {timestamp : String} {processingTime : Nat}
    (hsize : f.buffer.length ≤ fileSizeLimit) :
    uploadRoute libs (some f) timestamp processingTime =
      uploadHandler libs (some f) timestamp processingTime := by
  have hlt : ¬ (f.buffer.length > fileSizeLimit) := by omega
  simp only [uploadRoute, multerParse, if_neg hlt]

/-- C1: for a valid non-empty document whose filename ends in .docx or .pdf
(extraction succeeds with text that is not all-whitespace), /upload returns
200 with body { text, metadata: { originalName, fileSize, extractedLength,
processingTime, timestamp } }, where metadata.extractedLength is the length
of the returned text, metadata.originalName the uploaded filename, and
metadata.fileSize the uploaded buffer's byte length (successBody records
exactly these fields, with extractedLength = jsLength of the text field). -/
theorem upload_success_metadata_C1 (libs : ExtractLibs) (f : UploadFile)
    (timestamp : String) (processingTime : Nat) (t : String)
    (hsize : f.buffer.length ≤ fileSizeLimit) (htext : jsTrim t ≠ "") :
    (jsEndsWith f.originalname ".docx" = true →
      libs.mammothExtractRawText f.buffer = Except.ok t →
      uploadRoute libs (some f) timestamp processingTime =
        (200, successBody t f.originalname f.buffer.length processingTime timestamp)) ∧
    (jsEndsWith f.originalname ".pdf" = true →
      libs.pdfParse f.buffer = Except.ok t →
      uploadRoute libs (some f) timestamp processingTime =
        (200, successBody t f.originalname f.buffer.length processingTime timestamp)) := by
  rw [uploadRoute_small hsize]
  constructor
  · intro hext hok
    have hd := lower_ends_docx hext
    simp only [uploadHandler, hd, if_true, docxPath, hok, finishUpload, if_neg htext]
  · intro hext hok
    have hp := lower_ends_pdf hext
    have hnd := ends_pdf_not_docx (lower_ends_pdf hext)
    simp only [uploadHandler, hnd, hp, if_true, Bool.false_eq_true, if_false,
      pdfPath, hok, finishUpload, if_neg htext]

/-- Extraction stub used by concrete witnesses: both libraries succeed with a
fixed text. -/
def sampleLibs : ExtractLibs :=
  ⟨fun _ => Except.ok "Hello world", fun _ => Except.ok "Hello world"⟩

/-- A small concrete .docx upload. -/
def sampleDocx : UploadFile := ⟨[1, 2, 3], "report.docx"⟩

theorem upload_success_metadata_C1_witness :
    sampleDocx.buffer.length ≤ fileSizeLimit ∧ jsTrim "Hello world" ≠ "" ∧
    uploadRoute sampleLibs (some sampleDocx) "2026-01-01T00:00:00Z" 7 =
      (200, successBody "Hello world" "report.docx" 3 7 "2026-01-01T00:00:00Z") :=
  ⟨by decide, by decide,
    (upload_success_metadata_C1 sampleLibs sampleDocx "2026-01-01T00:00:00Z" 7
      "Hello world" (by decide) (by decide)).1 (by decide) rfl⟩

/-- C2: for an uploaded file whose (case-insensitively compared) filename
suffix is neither .docx nor .pdf, whatever the byte content, the handler
returns 400 with supportedTypes [".docx", ".pdf"], and the result does not
depend on the extraction libraries: neither is invoked. -/
theorem upload_unsupported_C2 (libs libs' : ExtractLibs) (f : UploadFile)
    (timestamp : String) (processingTime : Nat)
    (hdocx : jsEndsWith (jsToLowerCase f.originalname) ".docx" = false)
    (hpdf : jsEndsWith (jsToLowerCase f.originalname) ".pdf" = false) :
    uploadHandler libs (some f) timestamp processingTime =
      (400, Json.obj [("error", Json.str "Unsupported file type."),
        ("supportedTypes", Json.arr [Json.str ".docx", Json.str ".pdf"])]) ∧
    uploadHandler libs (some f) timestamp processingTime =
      uploadHandler libs' (some f) timestamp processingTime := by
  constructor <;>
    simp only [uploadHandler, hdocx, hpdf, Bool.false_eq_true, if_false, unsupportedResponse]

/-- A concrete unsupported upload. -/
def sampleTxt : UploadFile := ⟨[0, 255], "notes.txt"⟩

theorem upload_unsupported_C2_witness :
    uploadHandler sampleLibs (some sampleTxt) "ts" 0 =
      (400, Json.obj [("error", Json.str "Unsupported file type."),
        ("supportedTypes", Json.arr [Json.str ".docx", Json.str ".pdf"])]) :=
  (upload_unsupported_C2 sampleLibs sampleLibs sampleTxt "ts" 0
    (by decide) (by decide)).1

/-- C3: for a .docx or .pdf upload whose extraction succeeds with text that
is empty or all-whitespace, the handler returns 422 and the extractedLength
field is the length of the raw extracted text, before any trimming. -/
theorem upload_no_text_C3 (libs : ExtractLibs) (f : UploadFile)
    (timestamp : String) (processingTime : Nat) (t : String)
    (hws : jsTrim t = "") :
    (jsEndsWith f.originalname ".docx" = true →
      libs.mammothExtractRawText f.buffer = Except.ok t →
      uploadHandler libs (some f) timestamp processingTime =
        (422, Json.obj [("error", Json.str "No text extracted."),
                        ("extractedLength", Json.num (jsLength t))])) ∧
    (jsEndsWith f.originalname ".pdf" = true →
      libs.pdfParse f.buffer = Except.ok t →
      uploadHandler libs (some f) timestamp processingTime =
        (422, Json.obj [("error", Json.str "No text extracted."),
                        ("extractedLength", Json.num (jsLength t))])) := by
  constructor
  · intro hext hok
    have hd := lower_ends_docx hext
    simp only [uploadHandler, hd, if_true, docxPath, hok, finishUpload, if_pos hws]
  · intro hext hok
    have hp := lower_ends_pdf hext
    have hnd := ends_pdf_not_docx (lower_ends_pdf hext)
    simp only [uploadHandler, hnd, hp, if_true, Bool.false_eq_true, if_false,
      pdfPath, hok, finishUpload, if_pos hws]

/-- Extraction stub returning only whitespace. -/
def blankLibs : ExtractLibs :=
  ⟨fun _ => Except.ok "  \n\t ", fun _ => Except.ok "  \n\t "⟩

theorem upload_no_text_C3_witness :
    jsTrim "  \n\t " = "" ∧ jsLength "  \n\t " = 5 ∧
    uploadHandler blankLibs (some sampleDocx) "ts" 0 =
      (422, Json.obj [("error", Json.str "No text extracted."),
                      ("extractedLength", Json.num (jsLength "  \n\t "))]) :=
  ⟨by decide, by decide,
    (upload_no_text_C3 blankLibs sampleDocx "ts" 0 "  \n\t " (by decide)).1
      (by decide) rfl⟩

/-- C4: an upload whose byte length exceeds 10 MiB is rejected with 413
during multipart parsing, before the handler body runs: the response is the
error middleware's FileTooLarge body and does not depend on the extraction
libraries, so no extraction is attempted. -/
theorem upload_too_large_C4 (libs libs' : ExtractLibs) (f : UploadFile)
    (timestamp : String) (processingTime : Nat)
    (hbig : f.buffer.length > fileSizeLimit) :
    uploadRoute libs (some f) timestamp processingTime =
      (413, Json.obj [("error", Json.str "File too large. Max size is 10MB.")]) ∧
    uploadRoute libs (some f) timestamp processingTime =
      uploadRoute libs' (some f) timestamp processingTime := by
  constructor <;>
    simp only [uploadRoute, multerParse, if_pos hbig, errorMiddleware,
      Bool.true_and, beq_self_eq_true, if_true, Bool.and_self]

/-- A file one byte over the 10 MiB ceiling. -/
def hugeFile : UploadFile := ⟨List.replicate (fileSizeLimit + 1) 0, "big.docx"⟩

theorem upload_too_large_C4_witness :
    uploadRoute sampleLibs (some hugeFile) "ts" 0 =
      (413, Json.obj [("error", Json.str "File too large. Max size is 10MB.")]) :=
  (upload_too_large_C4 sampleLibs sampleLibs hugeFile "ts" 0
    (by simp [hugeFile, List.length_replicate])).1

/-- The docx branch never produces the 400 unsupported-type status. -/
theorem docxPath_status_ne_400 (libs : ExtractLibs) (f : UploadFile)
    (timestamp : String) (processingTime : Nat) :
    (docxPath libs f timestamp processingTime).1 ≠ 400 := by
  cases h : libs.mammothExtractRawText f.buffer with
  | error msg => simp [docxPath, h]
  | ok t =>
      simp only [docxPath, h, finishUpload]
      split <;> simp [successBody]

/-- The pdf branch never produces the 400 unsupported-type status. -/
theorem pdfPath_status_ne_400 (libs : ExtractLibs) (f : UploadFile)
    (timestamp : String) (processingTime : Nat) :
    (pdfPath libs f timestamp processingTime).1 ≠ 400 := by
  cases h : libs.pdfParse f.buffer with
  | error msg => simp [pdfPath, h]
  | ok t =>
      simp only [pdfPath, h, finishUpload]
      split <;> simp [successBody]

/-- C5: the dispatch is keyed on the case-insensitively compared filename
suffix: a filename ending (in any casing) in a suffix that lowercases to
".docx" is routed to the docx extraction branch, one whose suffix lowercases
to ".pdf" to the pdf branch, and neither is ever the unsupported-type
rejection. -/
theorem upload_dispatch_case_insensitive_C5 (libs : ExtractLibs)
    (f : UploadFile) (timestamp : String) (processingTime : Nat) (ext : String) :
    (jsToLowerCase ext = ".docx" → jsEndsWith f.originalname ext = true →
      uploadHandler libs (some f) timestamp processingTime =
        docxPath libs f timestamp processingTime ∧
      uploadHandler libs (some f) timestamp processingTime ≠ unsupportedResponse) ∧
    (jsToLowerCase ext = ".pdf" → jsEndsWith f.originalname ext = true →
      uploadHandler libs (some f) timestamp processingTime =
        pdfPath libs f timestamp processingTime ∧
      uploadHandler libs (some f) timestamp processingTime ≠ unsupportedResponse) := by
  constructor
  · intro hlow hext
    have hd : jsEndsWith (jsToLowerCase f.originalname) ".docx" = true := by
      have h := jsEndsWith_toLower hext
      rwa [hlow] at h
    have heq : uploadHandler libs (some f) timestamp processingTime =
        docxPath libs f timestamp processingTime := by
      simp only [uploadHandler, hd, if_true]
    refine ⟨heq, ?_⟩
    rw [heq]
    intro hbad
    exact docxPath_status_ne_400 libs f timestamp processingTime
      (congrArg Prod.fst hbad)
  · intro hlow hext
    have hp : jsEndsWith (jsToLowerCase f.originalname) ".pdf" = true := by
      have h := jsEndsWith_toLower hext
      rwa [hlow] at h
    have hnd := ends_pdf_not_docx hp
    have heq : uploadHandler libs (some f) timestamp processingTime =
        pdfPath libs f timestamp processingTime := by
      simp only [uploadHandler, hnd, hp, if_true, Bool.false_eq_true, if_false]
    refine ⟨heq, ?_⟩
    rw [heq]
    intro hbad
    exact pdfPath_status_ne_400 libs f timestamp processingTime
      (congrArg Prod.fst hbad)

/-- An upper-cased .DOCX upload. -/
def sampleUpperDocx : UploadFile := ⟨[9], "IEP PLAN.DOCX"⟩

theorem upload_dispatch_case_insensitive_C5_witness :
    uploadHandler sampleLibs (some sampleUpperDocx) "ts" 0 =
      docxPath sampleLibs sampleUpperDocx "ts" 0 ∧
    uploadHandler sampleLibs (some sampleUpperDocx) "ts" 0 ≠ unsupportedResponse :=
  (upload_dispatch_case_insensitive_C5 sampleLibs sampleUpperDocx "ts" 0 ".DOCX").1
    (by decide) (by decide)

/-- C6: /analyze with accommodations "abc" and lessonPlan "" returns 200
with a summary containing "(3 / 0 characters)" and received equal to
{accommodations: "abc", lessonPlan: ""}; in general the summary is the
template interpolating the two field lengths. -/
theorem analyze_summary_C6 :
    analyzeHandler (some "abc") (some "") =
      (200, Json.obj
        [("message", Json.str "Analysis received."),
         ("summary",
          Json.str "Accommodations and lesson plan received (3 / 0 characters)."),
         ("received", Json.obj
           [("accommodations", Json.str "abc"), ("lessonPlan", Json.str "")])]) ∧
    (∃ pre post,
      "Accommodations and lesson plan received (3 / 0 characters)." =
        pre ++ "(3 / 0 characters)" ++ post) ∧
    (∀ a l : Option String, analyzeHandler a l =
      (200, Json.obj
        [("message", Json.str "Analysis received."),
         ("summary", Json.str (analyzeSummary (optLen a) (optLen l))),
         ("received", Json.obj (receivedFields a l))])) := by
  refine ⟨?_, ⟨"Accommodations and lesson plan received ", ".", by decide⟩,
    fun a l => rfl⟩
  have hsum : analyzeSummary (optLen (some "abc")) (optLen (some "")) =
      "Accommodations and lesson plan received (3 / 0 characters)." := by decide
  simp only [analyzeHandler, hsum, receivedFields]
  rfl

/-- C7: a request matching none of the registered routes gets 404 with the
fixed availableEndpoints list, and this response is the same constant for
every unmatched request. -/
theorem unmatched_route_404_C7 (libs libs' : ExtractLibs) (req req' : Request)
    (ts ts' : String) (pt pt' up up' : Nat)
    (h : ¬ isRegisteredRoute req.method req.path)
    (h' : ¬ isRegisteredRoute req'.method req'.path) :
    serverRespond libs req ts pt up = notFoundResponse ∧
    notFoundResponse = (404, Json.obj
      [("error", Json.str "Endpoint not found"),
       ("availableEndpoints", Json.arr
         [Json.str "GET /", Json.str "GET /health",
          Json.str "POST /upload", Json.str "POST /analyze"])]) ∧
    serverRespond libs req ts pt up = serverRespond libs' req' ts' pt' up' := by
  have h1 : ¬ (req.method = Method.GET ∧ req.path = "/health") :=
    fun hc => h (Or.inl hc)
  have h2 : ¬ (req.method = Method.GET ∧ req.path = "/") :=
    fun hc => h (Or.inr (Or.inl hc))
  have h3 : ¬ (req.method = Method.POST ∧ req.path = "/upload") :=
    fun hc => h (Or.inr (Or.inr (Or.inl hc)))
  have h4 : ¬ (req.method = Method.POST ∧ req.path = "/analyze") :=
    fun hc => h (Or.inr (Or.inr (Or.inr hc)))
  have g1 : ¬ (req'.method = Method.GET ∧ req'.path = "/health") :=
    fun hc => h' (Or.inl hc)
  have g2 : ¬ (req'.method = Method.GET ∧ req'.path = "/") :=
    fun hc => h' (Or.inr (Or.inl hc))
  have g3 : ¬ (req'.method = Method.POST ∧ req'.path = "/upload") :=
    fun hc => h' (Or.inr (Or.inr (Or.inl hc)))
  have g4 : ¬ (req'.method = Method.POST ∧ req'.path = "/analyze") :=
    fun hc => h' (Or.inr (Or.inr (Or.inr hc)))
  refine ⟨?_, rfl, ?_⟩
  · simp only [serverRespond, if_neg h1, if_neg h2, if_neg h3, if_neg h4]
  · simp only [serverRespond, if_neg h1, if_neg h2, if_neg h3, if_neg h4,
      if_neg g1, if_neg g2, if_neg g3, if_neg g4]

/-- A concrete unmatched request: GET /nonexistent. -/
def strayRequest : Request := ⟨Method.GET, "/nonexistent", none, none, none⟩

theorem unmatched_route_404_C7_witness :
    serverRespond sampleLibs strayRequest "ts" 0 0 = notFoundResponse :=
  (unmatched_route_404_C7 sampleLibs sampleLibs strayRequest strayRequest
    "ts" "ts" 0 0 0 0 (by decide) (by decide)).1

/-- C8 counterexample: with PORT set to the empty string the code falls back
to 3001 instead of using the set value, because the JS || fallback tests
truthiness, not presence. -/
theorem port_empty_env_counterexample_C8 :
    port (some "") = PortValue.num 3001 ∧ port (some "") ≠ PortValue.str "" := by
  constructor
  · rfl
  · decide

/-- C8 (amended): the listen port is read from the environment at startup;
when PORT is unset the fixed default 3001 is used, and for every environment
where PORT is set to a non-empty string the server uses that value. -/
theorem port_from_env_C8 (s : String) (hs : s ≠ "") :
    port (some s) = PortValue.str s ∧
    port none = PortValue.num defaultPort ∧ defaultPort = 3001 := by
  refine ⟨?_, rfl, rfl⟩
  simp only [port, if_neg hs]

theorem port_from_env_C8_witness :
    port (some "8080") = PortValue.str "8080" :=
  (port_from_env_C8 "8080" (by decide)).1

/-- C10: /analyze with a missing accommodations or lessonPlan field still
returns 200; the summary counts the missing field as 0 characters and the
received object omits the missing key (its field list carries no entry for
it) rather than holding an empty string. -/
theorem analyze_missing_fields_C10 :
    (∀ l : Option String,
      analyzeHandler none l =
        (200, Json.obj
          [("message", Json.str "Analysis received."),
           ("summary", Json.str (analyzeSummary 0 (optLen l))),
           ("received", Json.obj (receivedFields none l))]) ∧
      lookupField "accommodations" (receivedFields none l) = none) ∧
    (∀ a : Option String,
      analyzeHandler a none =
        (200, Json.obj
          [("message", Json.str "Analysis received."),
           ("summary", Json.str (analyzeSummary (optLen a) 0)),
           ("received", Json.obj (receivedFields a none))]) ∧
      lookupField "lessonPlan" (receivedFields a none) = none) ∧
    receivedFields none none = [] := by
  refine ⟨fun l => ⟨rfl, ?_⟩, fun a => ⟨rfl, ?_⟩, rfl⟩
  · cases l with
    | none => rfl
    | some s =>
        simp only [receivedFields, List.nil_append, lookupField]
        rw [if_neg (by decide : ¬ ("lessonPlan" : String) = "accommodations")]
  · cases a with
    | none => rfl
    | some s =>
        simp only [receivedFields, List.append_nil, lookupField]
        rw [if_neg (by decide : ¬ ("accommodations" : String) = "lessonPlan")]

/-- The error middleware always answers with a string-valued error field. -/
theorem errorMiddleware_has_error_field (e : ServerError) (ts : String) :
    hasStringErrorField (errorMiddleware e ts).2 = true := by
  unfold errorMiddleware
  split <;> rfl

/-- Every /upload route outcome is either 200 or carries a string-valued
error field. -/
theorem uploadRoute_error_or_ok (libs : ExtractLibs) (rf : Option UploadFile)
    (ts : String) (pt : Nat) :
    (uploadRoute libs rf ts pt).1 = 200 ∨
      hasStringErrorField (uploadRoute libs rf ts pt).2 = true := by
  unfold uploadRoute
  cases hm : multerParse fileSizeLimit rf with
  | error e => right; exact errorMiddleware_has_error_field e ts
  | ok file =>
      cases file with
      | none => right; rfl
      | some f =>
          simp only [uploadHandler]
          split
          · cases hd : libs.mammothExtractRawText f.buffer with
            | error msg => right; simp [docxPath, hd, hasStringErrorField, lookupField]
            | ok t =>
                simp only [docxPath, hd, finishUpload]
                split
                · right; rfl
                · left; rfl
          · split
            · cases hp : libs.pdfParse f.buffer with
              | error msg => right; simp [pdfPath, hp, hasStringErrorField, lookupField]
              | ok t =>
                  simp only [pdfPath, hp, finishUpload]
                  split
                  · right; rfl
                  · left; rfl
            · right; rfl

/-- Every response of the app is either 200 or carries a string-valued
error field. -/
theorem serverRespond_error_or_ok (libs : ExtractLibs) (req : Request)
    (ts : String) (pt up : Nat) :
    (serverRespond libs req ts pt up).1 = 200 ∨
      hasStringErrorField (serverRespond libs req ts pt up).2 = true := by
  unfold serverRespond
  split
  · left; rfl
  · split
    · left; rfl
    · split
      · exact uploadRoute_error_or_ok libs req.file ts pt
      · split
        · left; rfl
        · right; rfl

/-- C9: every non-200 JSON response the service produces — across all
handlers, the 404 fallback, and the error middleware on any error object —
contains a string-valued error field. -/
theorem non_ok_has_error_field_C9 :
    (∀ (libs : ExtractLibs) (req : Request) (ts : String) (pt up : Nat),
      (serverRespond libs req ts pt up).1 ≠ 200 →
      hasStringErrorField (serverRespond libs req ts pt up).2 = true) ∧
    (∀ (e : ServerError) (ts : String),
      hasStringErrorField (errorMiddleware e ts).2 = true) := by
  constructor
  · intro libs req ts pt up h
    rcases serverRespond_error_or_ok libs req ts pt up with h200 | herr
    · exact absurd h200 h
    · exact herr
  · exact errorMiddleware_has_error_field

theorem non_ok_has_error_field_C9_witness :
    hasStringErrorField (serverRespond sampleLibs strayRequest "ts" 0 0).2 = true :=
  non_ok_has_error_field_C9.1 sampleLibs strayRequest "ts" 0 0 (by decide)
